import Mathlib

/-!
Verification of the withdrawal state machine and the withdraw response
mapping of the stellar-sep-6 client library.

The embedding models the JavaScript runtime objects of
src/transfer-server.ts (state machine part) and src/withdrawal.ts:

- A state is a record with a step tag and one optional slot per property
  that any state variant can carry; a slot holding none models a property
  that is absent or undefined on the runtime object.  This mirrors object
  spread (set-auth-token keeps every property of the previous state) and
  fresh object literals (all other branches reset the unmentioned slots).
- The details record mirrors Partial of GeneralWithdrawalDetails: each
  field is optional, and a completeness predicate expresses that all four
  fields are present (the shape the TypeScript type
  GeneralWithdrawalDetails requires on every state except initial).
- Payload types the reducer never inspects (asset, transfer server
  reference, webauth challenge, the KYC / withdrawal responses) are
  opaque and modelled as Nat.
- A thrown Error is modelled as Except.error carrying the message string.
-/

namespace StellarSep6

/-- Opaque stellar-sdk Asset value; the reducer never inspects it. -/
abbrev Asset := Nat

/-- Opaque reference to a TransferServer instance. -/
abbrev TransferServerRef := Nat

/-- The withdrawal form values: a map from field name to string value. -/
abbrev FormValues := List (String × String)

/-- Opaque webauth challenge (WebauthData together with its transaction). -/
abbrev WebauthChallenge := Nat

/-- Opaque KYCInteractiveResponse payload. -/
abbrev KYCInteractiveResponse := Nat

/-- Opaque KYCStatusResponse payload tagged pending. -/
abbrev KYCPendingResponse := Nat

/-- Opaque KYCStatusResponse payload tagged denied. -/
abbrev KYCDeniedResponse := Nat

/-- Opaque WithdrawalSuccessResponse payload. -/
abbrev WithdrawalSuccessResponse := Nat

/-- Runtime shape of a details record (transfer-server.ts lines 222-227).
Every field is optional so that the same type covers the Partial details
an initial state may carry and the complete details all other states
carry; completeness is the predicate isComplete below. -/
structure GeneralWithdrawalDetails where
  asset : Option Asset
  withdrawalFormValues : Option FormValues
  method : Option String
  transferServer : Option TransferServerRef
deriving DecidableEq

/-- All four detail fields are present (the TypeScript type
GeneralWithdrawalDetails, as opposed to its Partial). -/
def GeneralWithdrawalDetails.isComplete (d : GeneralWithdrawalDetails) : Bool :=
  d.asset.isSome && d.withdrawalFormValues.isSome &&
    d.method.isSome && d.transferServer.isSome

/-- The step discriminant of a state (transfer-server.ts lines 229-283). -/
inductive Step where
  | initial
  | beforeWebauth
  | afterWebauth
  | beforeInteractiveKyc
  | pendingKyc
  | afterDeniedKyc
  | afterSuccessfulKyc
  | afterTxSubmission
deriving DecidableEq

/-- The step string as it appears on the runtime object, used in the
illegal-transition error message template. -/
def Step.tag : Step → String
  | .initial => "initial"
  | .beforeWebauth => "before-webauth"
  | .afterWebauth => "after-webauth"
  | .beforeInteractiveKyc => "before-interactive-kyc"
  | .pendingKyc => "pending-kyc"
  | .afterDeniedKyc => "after-denied-kyc"
  | .afterSuccessfulKyc => "after-successful-kyc"
  | .afterTxSubmission => "after-tx-submission"

/-- Runtime shape of a State value (the union in transfer-server.ts lines
275-283).  One optional slot per property any variant can carry; a slot
holding none models the property being absent or undefined on the
runtime object. -/
structure State where
  step : Step
  details : Option GeneralWithdrawalDetails := none
  webauth : Option WebauthChallenge := none
  authToken : Option String := none
  kyc : Option KYCInteractiveResponse := none
  kycStatus : Option KYCPendingResponse := none
  rejection : Option KYCDeniedResponse := none
  withdrawal : Option WithdrawalSuccessResponse := none
deriving DecidableEq

/-- The action union (transfer-server.ts lines 341-349); constructor names
follow the action creator functions, payloads in source order. -/
inductive Action where
  | backToStart
  | saveInitFormData (transferServer : TransferServerRef) (asset : Asset)
      (method : String) (formValues : FormValues)
      (webauth : Option WebauthChallenge)
  | setAuthToken (token : Option String)
  | startInteractiveKYC (response : KYCInteractiveResponse)
  | pendingKYC (response : KYCPendingResponse)
  | failedKYC (response : KYCDeniedResponse)
  | successfulKYC (response : WithdrawalSuccessResponse)
  | transactionSubmitted
deriving DecidableEq

/-- The type tag of an action, used in the illegal-transition message. -/
def Action.tag : Action → String
  | .backToStart => "back-to-start"
  | .saveInitFormData _ _ _ _ _ => "save-init-form"
  | .setAuthToken _ => "set-auth-token"
  | .startInteractiveKYC _ => "start-interactive-kyc"
  | .pendingKYC _ => "kyc-pending"
  | .failedKYC _ => "kyc-denied"
  | .successfulKYC _ => "kyc-successful"
  | .transactionSubmitted => "after-tx-submission"

/-- The four actions whose reducer branch guards on the presence of
details (transfer-server.ts lines 406-441). -/
def Action.requiresDetails : Action → Bool
  | .startInteractiveKYC _ => true
  | .pendingKYC _ => true
  | .failedKYC _ => true
  | .successfulKYC _ => true
  | _ => false

/-- transfer-server.ts line 362: the exported initial state. -/
def initialState : State := { step := Step.initial }

/-- The reducer (transfer-server.ts lines 366-449).  A thrown Error is
Except.error with the thrown message.  The test `"details" in state` is
modelled as `state.details` not being none, and object spread in the
set-auth-token branch as a record update. -/
def stateMachine (state : State) (action : Action) : Except String State :=
  match action with
  | .backToStart =>
      Except.ok { step := Step.initial, details := state.details }
  | .saveInitFormData transferServer asset method formValues webauth =>
      match webauth with
      | some w =>
          Except.ok
            { step := Step.beforeWebauth,
              details := some
                { asset := some asset,
                  withdrawalFormValues := some formValues,
                  method := some method,
                  transferServer := some transferServer },
              webauth := some w }
      | none =>
          Except.ok
            { step := Step.afterWebauth,
              authToken := none,
              details := some
                { asset := some asset,
                  withdrawalFormValues := some formValues,
                  method := some method,
                  transferServer := some transferServer } }
  | .setAuthToken token =>
      if state.step ≠ Step.beforeWebauth then
        Except.error ("Cannot set auth token at this time.")
      else
        Except.ok { state with step := Step.afterWebauth, authToken := token }
  | .startInteractiveKYC response =>
      if state.details = none ∨ state.step = Step.initial then
        Except.error
          ("Cannot perform start-interactive-kyc in state " ++ state.step.tag ++ ".")
      else
        Except.ok
          { step := Step.beforeInteractiveKyc,
            details := state.details,
            kyc := some response }
  | .pendingKYC response =>
      if state.details = none ∨ state.step = Step.initial then
        Except.error
          ("Cannot perform kyc-pending in state " ++ state.step.tag ++ ".")
      else
        Except.ok
          { step := Step.pendingKyc,
            details := state.details,
            kycStatus := some response }
  | .failedKYC response =>
      if state.details = none ∨ state.step = Step.initial then
        Except.error
          ("Cannot perform kyc-denied in state " ++ state.step.tag ++ ".")
      else
        Except.ok
          { step := Step.afterDeniedKyc,
            details := state.details,
            rejection := some response }
  | .successfulKYC response =>
      if state.details = none ∨ state.step = Step.initial then
        Except.error
          ("Cannot perform kyc-successful in state " ++ state.step.tag ++ ".")
      else
        Except.ok
          { step := Step.afterSuccessfulKyc,
            details := state.details,
            withdrawal := some response }
  | .transactionSubmitted =>
      Except.ok { step := Step.afterTxSubmission }

/-- States reachable from initialState through successful transitions. -/
inductive Reachable : State → Prop where
  | init : Reachable initialState
  | step {s s' : State} {a : Action} :
      Reachable s → stateMachine s a = Except.ok s' → Reachable s'

/-!
Embedding of the withdraw call (withdrawal.ts lines 74-118).  The network
exchange is modelled by passing the HTTP response the anchor gives; the
header and query-parameter assembly of lines 81-90 performs no branching
on the response and is omitted.
-/

/-- Parsed JSON body of an anchor response: an optional message plus the
rest of the payload, opaque to the status dispatch. -/
structure ResponseBody where
  message : Option String
  payload : Nat
deriving DecidableEq

/-- An HTTP response as the axios client delivers it: status code and
data, where data holding none models an empty or null body. -/
structure HttpResponse where
  status : Nat
  data : Option ResponseBody
deriving DecidableEq

/-- Result union of the withdraw call (withdrawal.ts lines 53-64),
carrying the response payload as the source casts response.data. -/
inductive WithdrawalRequestResult where
  | success (data : Option ResponseBody)
  | kyc (data : Option ResponseBody)
deriving DecidableEq

/-- withdrawal.ts lines 93-94: the validateStatus predicate handed to
axios (201 is a TEMPO fix). -/
def validateStatus (status : Nat) : Bool :=
  status == 200 || status == 201 || status == 403

/-- The axios call of withdrawal.ts line 95: axios resolves with the
response when validateStatus accepts its status and otherwise rejects
with its standard request-failed error for that status. -/
def axiosRequest (response : HttpResponse) : Except String HttpResponse :=
  if validateStatus response.status then
    Except.ok response
  else
    Except.error ("Request failed with status code " ++ toString response.status)

/-- The JavaScript truthiness test `response.data && response.data.message`
of withdrawal.ts line 107: some message when the body is present and its
message field is a non-empty string, none otherwise. -/
def truthyMessage : Option ResponseBody → Option String
  | some body =>
      match body.message with
      | some msg => if msg = "" then none else some msg
      | none => none
  | none => none

/-- The withdraw call (withdrawal.ts lines 74-118) as a function of the
HTTP response the anchor gives; a thrown Error is Except.error with the
thrown message. -/
def withdraw (response : HttpResponse) : Except String WithdrawalRequestResult :=
  match axiosRequest response with
  | Except.error e => Except.error e
  | Except.ok resp =>
      if resp.status = 200 then
        Except.ok (WithdrawalRequestResult.success resp.data)
      else if resp.status = 403 then
        Except.ok (WithdrawalRequestResult.kyc resp.data)
      else
        match truthyMessage resp.data with
        | some msg =>
            Except.error
              ("Anchor responded with status code " ++ toString resp.status
                ++ ": " ++ msg)
        | none =>
            Except.error
              ("Anchor responded with unexpected status code: "
                ++ toString resp.status)

/-!
Sample values used by witness theorems.
-/

/-- A complete details record built from sample form input. -/
def sampleDetails : GeneralWithdrawalDetails :=
  { asset := some 1,
    withdrawalFormValues := some [("dest", "GABC")],
    method := some "bank_account",
    transferServer := some 7 }

/-- A strictly partial details record, as an initial state may carry. -/
def samplePartialDetails : GeneralWithdrawalDetails :=
  { asset := none,
    withdrawalFormValues := some [("dest", "GABC")],
    method := none,
    transferServer := none }

/-- A before-webauth state carrying sample details and a pending
webauth challenge. -/
def sampleBeforeWebauth : State :=
  { step := Step.beforeWebauth,
    details := some sampleDetails,
    webauth := some 5 }

/-- The save-init-form action of the sample form submission, without a
webauth challenge. -/
def sampleInitAction : Action :=
  Action.saveInitFormData 7 1 "bank_account" [("dest", "GABC")] none

/-- The state the reducer produces from the sample save-init-form action
without a webauth challenge. -/
def sampleAfterWebauth : State :=
  { step := Step.afterWebauth,
    authToken := none,
    details := some sampleDetails }

/-!
Helper lemmas shared by the claim theorems.
-/

/-- Whenever the details guard of a details-requiring reducer branch
fires, the reducer throws. -/
theorem requiresDetails_error (s : State) (a : Action)
    (hguard : s.details = none ∨ s.step = Step.initial)
    (ha : a.requiresDetails = true) :
    ∃ msg, stateMachine s a = Except.error msg := by
  cases a with
  | startInteractiveKYC r =>
      exact ⟨_, by simp only [stateMachine]; rw [if_pos hguard]⟩
  | pendingKYC r =>
      exact ⟨_, by simp only [stateMachine]; rw [if_pos hguard]⟩
  | failedKYC r =>
      exact ⟨_, by simp only [stateMachine]; rw [if_pos hguard]⟩
  | successfulKYC r =>
      exact ⟨_, by simp only [stateMachine]; rw [if_pos hguard]⟩
  | backToStart => simp [Action.requiresDetails] at ha
  | saveInitFormData ts asset m fv w => simp [Action.requiresDetails] at ha
  | setAuthToken t => simp [Action.requiresDetails] at ha
  | transactionSubmitted => simp [Action.requiresDetails] at ha

/-- The reachability invariant: a reachable after-tx-submission state
carries no details, and every other reachable non-initial state carries
a complete details record. -/
def DetailsInv (s : State) : Prop :=
  (s.step = Step.afterTxSubmission → s.details = none) ∧
  (s.step ≠ Step.initial → s.step ≠ Step.afterTxSubmission →
    ∃ d, s.details = some d ∧ d.isComplete = true)

theorem detailsInv_initialState : DetailsInv initialState := by
  constructor
  · intro h
    simp [initialState] at h
  · intro h1 h2
    exact absurd rfl h1

theorem stateMachine_preserves_detailsInv (s s' : State) (a : Action)
    (hs : DetailsInv s) (heq : stateMachine s a = Except.ok s') :
    DetailsInv s' := by
  cases a with
  | backToStart =>
      simp only [stateMachine, Except.ok.injEq] at heq
      subst heq
      exact ⟨by intro h; simp at h, by intro h1 _; exact absurd rfl h1⟩
  | saveInitFormData ts asset m fv w =>
      cases w with
      | some c =>
          simp only [stateMachine, Except.ok.injEq] at heq
          subst heq
          exact ⟨by intro h; simp at h, fun _ _ => ⟨_, rfl, rfl⟩⟩
      | none =>
          simp only [stateMachine, Except.ok.injEq] at heq
          subst heq
          exact ⟨by intro h; simp at h, fun _ _ => ⟨_, rfl, rfl⟩⟩
  | setAuthToken t =>
      simp only [stateMachine] at heq
      split at heq
      · exact absurd heq (by simp)
      · rename_i hcond
        rw [not_not] at hcond
        simp only [Except.ok.injEq] at heq
        subst heq
        obtain ⟨d, hd, hc⟩ := hs.2 (by simp [hcond]) (by simp [hcond])
        exact ⟨by intro h; simp at h, fun _ _ => ⟨d, hd, hc⟩⟩
  | startInteractiveKYC r =>
      simp only [stateMachine] at heq
      split at heq
      · exact absurd heq (by simp)
      · rename_i hcond
        push_neg at hcond
        have hnotTx : s.step ≠ Step.afterTxSubmission := by
          intro h
          exact hcond.1 (hs.1 h)
        obtain ⟨d, hd, hc⟩ := hs.2 hcond.2 hnotTx
        simp only [Except.ok.injEq] at heq
        subst heq
        exact ⟨by intro h; simp at h, fun _ _ => ⟨d, hd, hc⟩⟩
  | pendingKYC r =>
      simp only [stateMachine] at heq
      split at heq
      · exact absurd heq (by simp)
      · rename_i hcond
        push_neg at hcond
        have hnotTx : s.step ≠ Step.afterTxSubmission := by
          intro h
          exact hcond.1 (hs.1 h)
        obtain ⟨d, hd, hc⟩ := hs.2 hcond.2 hnotTx
        simp only [Except.ok.injEq] at heq
        subst heq
        exact ⟨by intro h; simp at h, fun _ _ => ⟨d, hd, hc⟩⟩
  | failedKYC r =>
      simp only [stateMachine] at heq
      split at heq
      · exact absurd heq (by simp)
      · rename_i hcond
        push_neg at hcond
        have hnotTx : s.step ≠ Step.afterTxSubmission := by
          intro h
          exact hcond.1 (hs.1 h)
        obtain ⟨d, hd, hc⟩ := hs.2 hcond.2 hnotTx
        simp only [Except.ok.injEq] at heq
        subst heq
        exact ⟨by intro h; simp at h, fun _ _ => ⟨d, hd, hc⟩⟩
  | successfulKYC r =>
      simp only [stateMachine] at heq
      split at heq
      · exact absurd heq (by simp)
      · rename_i hcond
        push_neg at hcond
        have hnotTx : s.step ≠ Step.afterTxSubmission := by
          intro h
          exact hcond.1 (hs.1 h)
        obtain ⟨d, hd, hc⟩ := hs.2 hcond.2 hnotTx
        simp only [Except.ok.injEq] at heq
        subst heq
        exact ⟨by intro h; simp at h, fun _ _ => ⟨d, hd, hc⟩⟩
  | transactionSubmitted =>
      simp only [stateMachine, Except.ok.injEq] at heq
      subst heq
      exact ⟨fun _ => rfl, by intro _ h2; exact absurd rfl h2⟩

theorem reachable_detailsInv (s : State) (h : Reachable s) : DetailsInv s := by
  induction h with
  | init => exact detailsInv_initialState
  | step hr heq ih => exact stateMachine_preserves_detailsInv _ _ _ ih heq

/-!
Claim theorems.
-/

/-- C1: for every state S and every token t, the set-auth-token(t) action
yields an after-webauth state with authToken equal to t and the same
details as S when S is a before-webauth state, and raises the
illegal-transition error for every other state S. -/
theorem C1_set_auth_token (s : State) (t : Option String) :
    (s.step = Step.beforeWebauth →
      ∃ s', stateMachine s (Action.setAuthToken t) = Except.ok s' ∧
        s'.step = Step.afterWebauth ∧ s'.authToken = t ∧
        s'.details = s.details) ∧
    (s.step ≠ Step.beforeWebauth →
      stateMachine s (Action.setAuthToken t) =
        Except.error ("Cannot set auth token at this time.")) := by
  constructor
  · intro h
    refine ⟨{ s with step := Step.afterWebauth, authToken := t }, ?_, rfl, rfl, rfl⟩
    simp [stateMachine, h]
  · intro h
    simp [stateMachine, h]

/-- C1 witness: set-auth-token on a concrete before-webauth state. -/
theorem C1_set_auth_token_witness :
    ∃ s', stateMachine sampleBeforeWebauth (Action.setAuthToken (some "tok")) =
        Except.ok s' ∧
      s'.step = Step.afterWebauth ∧ s'.authToken = some "tok" ∧
      s'.details = sampleBeforeWebauth.details :=
  (C1_set_auth_token sampleBeforeWebauth (some "tok")).1 rfl

/-- C2: every state reachable from the initial state by successful
transitions, other than initial and after-tx-submission states, carries a
complete details value; and the reducer fails rather than substituting a
default when a details-requiring action is applied to a state without
details. -/
theorem C2_details_invariant :
    (∀ s : State, Reachable s → s.step ≠ Step.initial →
      s.step ≠ Step.afterTxSubmission →
      ∃ d, s.details = some d ∧ d.isComplete = true) ∧
    (∀ (s : State) (a : Action), a.requiresDetails = true →
      s.details = none → ∃ msg, stateMachine s a = Except.error msg) := by
  constructor
  · intro s h h1 h2
    exact (reachable_detailsInv s h).2 h1 h2
  · intro s a ha hd
    exact requiresDetails_error s a (Or.inl hd) ha

/-- C2 witness: the state reached by the sample save-init-form action
carries complete details. -/
theorem C2_details_invariant_witness :
    ∃ d, sampleAfterWebauth.details = some d ∧ d.isComplete = true :=
  C2_details_invariant.1 sampleAfterWebauth
    (@Reachable.step initialState sampleAfterWebauth sampleInitAction
      Reachable.init rfl)
    (by decide) (by decide)

/-- C3: for every state S, the back-to-start action yields a state with
step initial whose details equal the details of S when S has them and are
absent when S has none. -/
theorem C3_back_to_start (s : State) :
    ∃ s', stateMachine s Action.backToStart = Except.ok s' ∧
      s'.step = Step.initial ∧ s'.details = s.details :=
  ⟨{ step := Step.initial, details := s.details }, rfl, rfl, rfl⟩

/-- C4: from every initial state, with or without partial details, each
of the four KYC-related actions raises an illegal-transition error. -/
theorem C4_initial_rejects_kyc_actions (s : State) (a : Action)
    (hs : s.step = Step.initial) (ha : a.requiresDetails = true) :
    ∃ msg, stateMachine s a = Except.error msg :=
  requiresDetails_error s a (Or.inr hs) ha

/-- C4 witness: start-interactive-kyc on an initial state that carries
partial details. -/
theorem C4_initial_rejects_kyc_actions_witness :
    ∃ msg, stateMachine
        { step := Step.initial, details := some samplePartialDetails }
        (Action.startInteractiveKYC 3) = Except.error msg :=
  C4_initial_rejects_kyc_actions
    { step := Step.initial, details := some samplePartialDetails }
    (Action.startInteractiveKYC 3) rfl rfl

/-- C5: for every state S, save-init-form with a webauth challenge yields
a before-webauth state with details assembled from the action payload and
the challenge attached; without a challenge it yields an after-webauth
state with the same assembled details and no auth token; and the result
never depends on S. -/
theorem C5_save_init_form (s : State) (ts : TransferServerRef)
    (asset : Asset) (m : String) (fv : FormValues) :
    (∀ w : WebauthChallenge,
      stateMachine s (Action.saveInitFormData ts asset m fv (some w)) =
        Except.ok
          { step := Step.beforeWebauth,
            details := some
              { asset := some asset, withdrawalFormValues := some fv,
                method := some m, transferServer := some ts },
            webauth := some w }) ∧
    (stateMachine s (Action.saveInitFormData ts asset m fv none) =
      Except.ok
        { step := Step.afterWebauth,
          authToken := none,
          details := some
            { asset := some asset, withdrawalFormValues := some fv,
              method := some m, transferServer := some ts } }) ∧
    (∀ (s₂ : State) (w : Option WebauthChallenge),
      stateMachine s (Action.saveInitFormData ts asset m fv w) =
        stateMachine s₂ (Action.saveInitFormData ts asset m fv w)) := by
  refine ⟨fun w => rfl, rfl, fun s₂ w => ?_⟩
  cases w <;> rfl

/-- C6: for every detail-bearing state S and each of the four
KYC-related actions, the resulting state carries details equal to the
details of S. -/
theorem C6_kyc_actions_preserve_details (s : State) (a : Action)
    (hd : s.details ≠ none)
    (hs : s.step = Step.beforeWebauth ∨ s.step = Step.afterWebauth ∨
      s.step = Step.beforeInteractiveKyc ∨ s.step = Step.pendingKyc ∨
      s.step = Step.afterDeniedKyc ∨ s.step = Step.afterSuccessfulKyc)
    (ha : a.requiresDetails = true) :
    ∃ s', stateMachine s a = Except.ok s' ∧ s'.details = s.details := by
  have hni : s.step ≠ Step.initial := by
    rcases hs with h | h | h | h | h | h <;> simp [h]
  have hguard : ¬ (s.details = none ∨ s.step = Step.initial) := by
    push_neg
    exact ⟨hd, hni⟩
  cases a with
  | startInteractiveKYC r =>
      refine ⟨{ step := Step.beforeInteractiveKyc,
                details := s.details,
                kyc := some r }, ?_, rfl⟩
      simp only [stateMachine]
      rw [if_neg hguard]
  | pendingKYC r =>
      refine ⟨{ step := Step.pendingKyc,
                details := s.details,
                kycStatus := some r }, ?_, rfl⟩
      simp only [stateMachine]
      rw [if_neg hguard]
  | failedKYC r =>
      refine ⟨{ step := Step.afterDeniedKyc,
                details := s.details,
                rejection := some r }, ?_, rfl⟩
      simp only [stateMachine]
      rw [if_neg hguard]
  | successfulKYC r =>
      refine ⟨{ step := Step.afterSuccessfulKyc,
                details := s.details,
                withdrawal := some r }, ?_, rfl⟩
      simp only [stateMachine]
      rw [if_neg hguard]
  | backToStart => simp [Action.requiresDetails] at ha
  | saveInitFormData ts asset m fv w => simp [Action.requiresDetails] at ha
  | setAuthToken t => simp [Action.requiresDetails] at ha
  | transactionSubmitted => simp [Action.requiresDetails] at ha

/-- C6 witness: kyc-pending on a concrete before-webauth state keeps the
details unchanged. -/
theorem C6_kyc_actions_preserve_details_witness :
    ∃ s', stateMachine sampleBeforeWebauth (Action.pendingKYC 11) =
        Except.ok s' ∧ s'.details = sampleBeforeWebauth.details :=
  C6_kyc_actions_preserve_details sampleBeforeWebauth (Action.pendingKYC 11)
    (by decide) (Or.inl rfl) rfl

/-- C7: for every state S, the after-tx-submission action yields exactly
the after-tx-submission state, with every other slot empty. -/
theorem C7_after_tx_submission (s : State) :
    stateMachine s Action.transactionSubmitted =
      Except.ok
        { step := Step.afterTxSubmission, details := none, webauth := none,
          authToken := none, kyc := none, kycStatus := none,
          rejection := none, withdrawal := none } := rfl

/-- C9: applying back-to-start twice in a row yields the state obtained
by applying it once. -/
theorem C9_back_to_start_idempotent (s : State) :
    ∃ s₁, stateMachine s Action.backToStart = Except.ok s₁ ∧
      stateMachine s₁ Action.backToStart = Except.ok s₁ :=
  ⟨{ step := Step.initial, details := s.details }, rfl, rfl⟩

/-- C10: for every before-webauth state S carrying webauth challenge C,
the set-auth-token result is built by spreading S, and so retains the
webauth property equal to C besides the new step, the token and the
details of S. -/
theorem C10_webauth_carried_over (s : State) (c : WebauthChallenge)
    (t : Option String) (hstep : s.step = Step.beforeWebauth)
    (hw : s.webauth = some c) :
    stateMachine s (Action.setAuthToken t) =
      Except.ok { s with step := Step.afterWebauth, authToken := t } ∧
    ∃ s', stateMachine s (Action.setAuthToken t) = Except.ok s' ∧
      s'.step = Step.afterWebauth ∧ s'.authToken = t ∧
      s'.details = s.details ∧ s'.webauth = some c := by
  have h1 : stateMachine s (Action.setAuthToken t) =
      Except.ok { s with step := Step.afterWebauth, authToken := t } := by
    simp [stateMachine, hstep]
  exact ⟨h1, ⟨{ s with step := Step.afterWebauth, authToken := t },
    h1, rfl, rfl, rfl, hw⟩⟩

/-- A string inclusion test: the second string occurs as a contiguous
substring of the first.  Used to state that an error message includes
the anchor message. -/
def containsSubstring (big small : String) : Bool :=
  (List.range (big.data.length + 1)).any
    (fun i => List.isPrefixOf small.data (List.drop i big.data))

theorem containsSubstring_append_left (p m : String) :
    containsSubstring (p ++ m) m = true := by
  unfold containsSubstring
  rw [List.any_eq_true]
  refine ⟨p.data.length, ?_, ?_⟩
  · rw [List.mem_range, String.data_append, List.length_append]
    omega
  · rw [String.data_append, List.drop_left, List.isPrefixOf_iff_prefix]

/-- Evaluation of withdraw as a case split on the response status and
message. -/
theorem withdraw_eval (st : Nat) (dat : Option ResponseBody) :
    withdraw { status := st, data := dat } =
      (if validateStatus st then
        (if st = 200 then
          Except.ok (WithdrawalRequestResult.success dat)
        else if st = 403 then
          Except.ok (WithdrawalRequestResult.kyc dat)
        else
          (match truthyMessage dat with
          | some msg =>
              Except.error
                ("Anchor responded with status code " ++ toString st
                  ++ ": " ++ msg)
          | none =>
              Except.error
                ("Anchor responded with unexpected status code: "
                  ++ toString st)))
      else
        Except.error ("Request failed with status code " ++ toString st)) := by
  cases hv : validateStatus st <;>
    simp only [withdraw, axiosRequest, hv] <;> rfl

/-- C8 counterexample: an anchor response with status 500 whose payload
carries a message makes withdraw fail with the generic request-failed
error of the HTTP layer, whose text does not include the anchor message,
refuting the claim that every non-200/403 status yields an error that
includes the anchor message when the payload has one. -/
theorem C8_status_mapping_counterexample :
    withdraw { status := 500,
               data := some { message := some "KYCMSG", payload := 0 } } =
      Except.error ("Request failed with status code 500") ∧
    containsSubstring ("Request failed with status code 500") "KYCMSG"
      = false := by
  constructor
  · rfl
  · decide

/-- C8 amended: withdraw maps status 200 to a success result and 403 to
a kyc result, both carrying the payload; for status 201, the only other
status the validateStatus check hands to the response dispatch, it
raises an error that includes the anchor message when the payload has
one and a generic unexpected-status message otherwise; for every other
status the HTTP layer itself rejects with a request-failed error that
does not carry the anchor message. -/
theorem C8_status_mapping_amended (r : HttpResponse) :
    (r.status = 200 →
      withdraw r = Except.ok (WithdrawalRequestResult.success r.data)) ∧
    (r.status = 403 →
      withdraw r = Except.ok (WithdrawalRequestResult.kyc r.data)) ∧
    (r.status = 201 → ∀ msg, truthyMessage r.data = some msg →
      withdraw r =
        Except.error ("Anchor responded with status code 201: " ++ msg) ∧
      containsSubstring ("Anchor responded with status code 201: " ++ msg)
        msg = true) ∧
    (r.status = 201 → truthyMessage r.data = none →
      withdraw r =
        Except.error ("Anchor responded with unexpected status code: 201")) ∧
    (r.status ≠ 200 → r.status ≠ 201 → r.status ≠ 403 →
      withdraw r =
        Except.error
          ("Request failed with status code " ++ toString r.status)) := by
  obtain ⟨st, dat⟩ := r
  refine ⟨?_, ?_, ?_, ?_, ?_⟩
  · rintro rfl
    rfl
  · rintro rfl
    rfl
  · rintro rfl msg hmsg
    constructor
    · rw [withdraw_eval, hmsg]
      rfl
    · exact containsSubstring_append_left "Anchor responded with status code 201: " msg
  · rintro rfl hmsg
    rw [withdraw_eval, hmsg]
    rfl
  · intro h1 h2 h3
    have hv : validateStatus st = false := by
      simp only [validateStatus, Bool.or_eq_false_iff, beq_eq_false_iff_ne]
      exact ⟨⟨h1, h2⟩, h3⟩
    rw [withdraw_eval, hv]
    rfl

/-- C8 witness: a status-200 response with a plain payload maps to a
success result. -/
theorem C8_status_mapping_amended_witness :
    withdraw { status := 200, data := some { message := none, payload := 3 } } =
      Except.ok (WithdrawalRequestResult.success
        (some { message := none, payload := 3 })) :=
  (C8_status_mapping_amended
    { status := 200, data := some { message := none, payload := 3 } }).1 rfl

/-- C10 witness: the sample before-webauth state keeps its challenge
through set-auth-token. -/
theorem C10_webauth_carried_over_witness :
    stateMachine sampleBeforeWebauth (Action.setAuthToken (some "tok2")) =
      Except.ok { sampleBeforeWebauth with
                  step := Step.afterWebauth,
                  authToken := some "tok2" } ∧
    ∃ s', stateMachine sampleBeforeWebauth (Action.setAuthToken (some "tok2")) =
        Except.ok s' ∧
      s'.step = Step.afterWebauth ∧ s'.authToken = some "tok2" ∧
      s'.details = sampleBeforeWebauth.details ∧ s'.webauth = some 5 :=
  C10_webauth_carried_over sampleBeforeWebauth 5 (some "tok2") rfl rfl

end StellarSep6
